import Mathlib

/- Verification development for the capacitor-printer plugin.  The
   definitions below embed the input-normalization and dispatch logic of the
   Android implementation (Printer.java) and of the web implementation
   (PrinterWeb in plugin.cjs.js).  Java/JS strings are modelled as List Char,
   bytes as Nat values below 256, and the platform collaborators (content
   resolver, filesystem, bitmap decoder, print manager) as an explicit
   environment record. -/

/-! ## Base64 primitive

The plugin decodes its base64 payload with a platform primitive
(android.util.Base64.decode on Android, window.atob on web).  Modelled from
the spec: the primitive is embedded as an RFC 4648 base64 codec over byte
lists; a final group of two or three alphabet characters (missing padding) is
accepted, as the platform decoders accept it. -/

/-- Alphabet character for a six-bit group (RFC 4648 base64). -/
def sextetChar (n : Nat) : Char :=
  if n < 26 then Char.ofNat (65 + n)
  else if n < 52 then Char.ofNat (97 + (n - 26))
  else if n < 62 then Char.ofNat (48 + (n - 52))
  else if n = 62 then '+'
  else '/'

/-- Six-bit value of a base64 alphabet character; none outside the alphabet. -/
def charSextet (c : Char) : Option Nat :=
  if 'A' ≤ c ∧ c ≤ 'Z' then some (c.toNat - 65)
  else if 'a' ≤ c ∧ c ≤ 'z' then some (c.toNat - 97 + 26)
  else if '0' ≤ c ∧ c ≤ '9' then some (c.toNat - 48 + 52)
  else if c = '+' then some 62
  else if c = '/' then some 63
  else none

/-- Whether a character belongs to the base64 alphabet. -/
def isB64Char (c : Char) : Bool :=
  if 'A' ≤ c ∧ c ≤ 'Z' then true
  else if 'a' ≤ c ∧ c ≤ 'z' then true
  else if '0' ≤ c ∧ c ≤ '9' then true
  else if c = '+' then true
  else c = '/'

/-- Standard base64 encoding of a byte list (three bytes to four characters,
with '=' padding on a final group of one or two bytes). -/
def b64encode : List Nat → List Char
  | [] => []
  | [a] => [sextetChar (a / 4), sextetChar (a % 4 * 16), '=', '=']
  | [a, b] =>
      [sextetChar (a / 4), sextetChar (a % 4 * 16 + b / 16),
       sextetChar (b % 16 * 4), '=']
  | a :: b :: c :: rest =>
      sextetChar (a / 4) :: sextetChar (a % 4 * 16 + b / 16) ::
      sextetChar (b % 16 * 4 + c / 64) :: sextetChar (c % 64) :: b64encode rest

/-- Base64 decoding to a byte list; none on malformed input.  A short final
group of two or three alphabet characters (unpadded input) is accepted. -/
def b64decode : List Char → Option (List Nat)
  | [] => some []
  | [_] => none
  | [c1, c2] =>
      match charSextet c1, charSextet c2 with
      | some s1, some s2 => some [s1 * 4 + s2 / 16]
      | _, _ => none
  | [c1, c2, c3] =>
      match charSextet c1, charSextet c2, charSextet c3 with
      | some s1, some s2, some s3 =>
          some [s1 * 4 + s2 / 16, s2 % 16 * 16 + s3 / 4]
      | _, _, _ => none
  | c1 :: c2 :: c3 :: c4 :: rest =>
      match charSextet c1, charSextet c2 with
      | some s1, some s2 =>
        if c3 = '=' then
          if c4 = '=' ∧ rest = [] then some [s1 * 4 + s2 / 16] else none
        else
          match charSextet c3 with
          | some s3 =>
            if c4 = '=' then
              if rest = [] then some [s1 * 4 + s2 / 16, s2 % 16 * 16 + s3 / 4]
              else none
            else
              match charSextet c4 with
              | some s4 =>
                match b64decode rest with
                | some bs =>
                    some ((s1 * 4 + s2 / 16) :: (s2 % 16 * 16 + s3 / 4) ::
                          (s3 % 4 * 64 + s4) :: bs)
                | none => none
              | none => none
          | none => none
      | _, _ => none

/-- Grammar of well-formed base64 text: full groups of four alphabet
characters, where the last group may carry '=' padding or be a short group of
two or three alphabet characters. -/
def isValidB64 : List Char → Bool
  | [] => true
  | [_] => false
  | [c1, c2] => isB64Char c1 && isB64Char c2
  | [c1, c2, c3] => isB64Char c1 && isB64Char c2 && isB64Char c3
  | c1 :: c2 :: c3 :: c4 :: rest =>
      isB64Char c1 && isB64Char c2 &&
      (if c3 = '=' then decide (c4 = '=' ∧ rest = [])
       else isB64Char c3 &&
         (if c4 = '=' then rest.isEmpty
          else isB64Char c4 && isValidB64 rest))

theorem charSextet_sextetChar : ∀ n, n < 64 → charSextet (sextetChar n) = some n := by
  decide

theorem sextetChar_ne_pad : ∀ n, n < 64 → sextetChar n ≠ '=' := by
  decide

theorem charSextet_isSome_iff (c : Char) :
    (charSextet c).isSome = isB64Char c := by
  unfold charSextet isB64Char
  split_ifs <;> simp_all

/-- Round trip: decoding an encoded byte list restores it exactly. -/
theorem b64decode_b64encode (bs : List Nat) (h : ∀ b ∈ bs, b < 256) :
    b64decode (b64encode bs) = some bs := by
  induction bs using b64encode.induct with
  | case1 => simp [b64encode, b64decode]
  | case2 a =>
      have ha : a < 256 := h a (by simp)
      have e1 := charSextet_sextetChar (a / 4) (by omega)
      have e2 := charSextet_sextetChar (a % 4 * 16) (by omega)
      rw [b64encode]
      simp [b64decode, e1, e2]
      omega
  | case3 a b =>
      have ha : a < 256 := h a (by simp)
      have hb : b < 256 := h b (by simp)
      have e1 := charSextet_sextetChar (a / 4) (by omega)
      have e2 := charSextet_sextetChar (a % 4 * 16 + b / 16) (by omega)
      have e3 := charSextet_sextetChar (b % 16 * 4) (by omega)
      have n3 := sextetChar_ne_pad (b % 16 * 4) (by omega)
      rw [b64encode]
      simp [b64decode, e1, e2, e3, n3]
      omega
  | case4 a b c rest ih =>
      have ha : a < 256 := h a (by simp)
      have hb : b < 256 := h b (by simp)
      have hc : c < 256 := h c (by simp)
      have hr : b64decode (b64encode rest) = some rest :=
        ih (fun x hx => h x (by simp [hx]))
      have e1 := charSextet_sextetChar (a / 4) (by omega)
      have e2 := charSextet_sextetChar (a % 4 * 16 + b / 16) (by omega)
      have e3 := charSextet_sextetChar (b % 16 * 4 + c / 64) (by omega)
      have e4 := charSextet_sextetChar (c % 64) (by omega)
      have n3 := sextetChar_ne_pad (b % 16 * 4 + c / 64) (by omega)
      have n4 := sextetChar_ne_pad (c % 64) (by omega)
      rw [b64encode]
      simp [b64decode, e1, e2, e3, e4, n3, n4, hr]
      refine ⟨by omega, by omega, by omega⟩

/-- Decoding succeeds exactly on well-formed base64 text. -/
theorem b64decode_isSome_iff (s : List Char) :
    (b64decode s).isSome = isValidB64 s := by
  suffices h : ∀ (n : Nat) (t : List Char), t.length ≤ n →
      (b64decode t).isSome = isValidB64 t from h s.length s le_rfl
  intro n
  induction n with
  | zero =>
      intro t ht
      have ht0 : t = [] := List.eq_nil_of_length_eq_zero (Nat.le_zero.mp ht)
      subst ht0
      simp [b64decode, isValidB64]
  | succ n ih =>
      intro t ht
      rcases t with _ | ⟨c1, t⟩
      · simp [b64decode, isValidB64]
      rcases t with _ | ⟨c2, t⟩
      · simp [b64decode, isValidB64]
      rcases t with _ | ⟨c3, t⟩
      · rw [b64decode, isValidB64]
        rw [← charSextet_isSome_iff c1, ← charSextet_isSome_iff c2]
        cases charSextet c1 <;> cases charSextet c2 <;> simp
      rcases t with _ | ⟨c4, rest⟩
      · rw [b64decode, isValidB64]
        rw [← charSextet_isSome_iff c1, ← charSextet_isSome_iff c2,
            ← charSextet_isSome_iff c3]
        cases charSextet c1 <;> cases charSextet c2 <;>
          cases charSextet c3 <;> simp
      · have ihr : (b64decode rest).isSome = isValidB64 rest := by
          refine ih rest ?_
          simp at ht
          omega
        rw [b64decode, isValidB64]
        rw [← charSextet_isSome_iff c1, ← charSextet_isSome_iff c2,
            ← charSextet_isSome_iff c3, ← charSextet_isSome_iff c4]
        cases charSextet c1 <;> cases charSextet c2 <;> simp
        by_cases h3 : c3 = '='
        · simp only [h3, if_true, reduceIte]
          by_cases h4 : c4 = '=' <;> by_cases hr : rest = [] <;>
            simp [h4, hr]
        · simp only [h3, if_false, reduceIte]
          cases charSextet c3 <;> simp
          by_cases h4 : c4 = '='
          · simp only [h4, if_true, reduceIte, List.isEmpty_iff]
            by_cases hr : rest = [] <;> simp [hr]
          · simp only [h4, if_false, reduceIte]
            cases charSextet c4 <;> simp
            rw [← ihr]
            cases b64decode rest <;> simp

/-! ## Streamed copy of the document adapters' write step

Both PrintDocumentAdapter implementations in Printer.java copy their input
stream to the destination file descriptor through a 1024-byte buffer:
a while loop reading into the buffer and writing the bytes read, until the
read returns a non-positive count (end of stream).  The loop is embedded
with an explicit fuel argument bounded by the stream length; each iteration
consumes up to 1024 bytes. -/

/-- One-buffer-at-a-time copy loop of the onWrite implementations.  Fuel
counts loop iterations; onWriteCopy supplies enough fuel for the whole
stream. -/
def readLoop : Nat → List Nat → List Nat
  | _, [] => []
  | 0, _ :: _ => []
  | fuel + 1, a :: l => (a :: l).take 1024 ++ readLoop fuel ((a :: l).drop 1024)

/-- Bytes delivered to the destination by the onWrite copy loop. -/
def onWriteCopy (input : List Nat) : List Nat :=
  readLoop input.length input

theorem readLoop_id (fuel : Nat) :
    ∀ l : List Nat, l.length ≤ fuel → readLoop fuel l = l := by
  induction fuel with
  | zero =>
      intro l hl
      have : l = [] := List.eq_nil_of_length_eq_zero (Nat.le_zero.mp hl)
      subst this
      rfl
  | succ fuel ih =>
      intro l hl
      rcases l with _ | ⟨a, l⟩
      · rfl
      · rw [readLoop]
        rw [ih ((a :: l).drop 1024) (by simp at hl ⊢; omega)]
        exact List.take_append_drop 1024 (a :: l)

/-- The write loop copies its entire input stream to the sink. -/
theorem onWriteCopy_id (input : List Nat) : onWriteCopy input = input :=
  readLoop_id input.length input le_rfl

/-! ## Java string helpers used by Printer.java

Strings are modelled as List Char.  toLowerCase is modelled on the ASCII
range, which covers every string the plugin compares (MIME types and file
extensions). -/

/-- ASCII lower-casing of one character (models java.lang.String.toLowerCase
on the characters the plugin compares). -/
def javaLower (c : Char) : Char :=
  if 'A' ≤ c ∧ c ≤ 'Z' then Char.ofNat (c.toNat + 32) else c

/-- Substring after the last dot: models
path.substring(path.lastIndexOf(".") + 1).  When the path has no dot,
lastIndexOf yields -1 and the whole string is returned, exactly as in Java. -/
def extAfterLastDot (path : List Char) : List Char :=
  (path.reverse.takeWhile (fun c => c != '.')).reverse

/-- MIME type inferred from a path, from Printer.getMimeTypeFromPath:
lower-cased extension looked up in the fixed switch, defaulting to
application/octet-stream. -/
def getMimeTypeFromPath (path : List Char) : List Char :=
  let extension := (extAfterLastDot path).map javaLower
  if extension = "pdf".toList then "application/pdf".toList
  else if extension = "jpg".toList ∨ extension = "jpeg".toList then
    "image/jpeg".toList
  else if extension = "png".toList then "image/png".toList
  else if extension = "gif".toList then "image/gif".toList
  else "application/octet-stream".toList

/-- Temp-file extension chosen from the MIME type, from
Printer.getExtensionFromMimeType. -/
def getExtensionFromMimeType (mimeType : List Char) : List Char :=
  let m := mimeType.map javaLower
  if m = "application/pdf".toList then ".pdf".toList
  else if m = "image/jpeg".toList ∨ m = "image/jpg".toList then ".jpg".toList
  else if m = "image/png".toList then ".png".toList
  else if m = "image/gif".toList then ".gif".toList
  else ".tmp".toList

/-- Extension-to-MIME lookup table exactly as the spec's section 4.2 words
it (spec-side definition, compared against getMimeTypeFromPath). -/
def specExtensionTable (ext : List Char) : List Char :=
  if ext = "pdf".toList then "application/pdf".toList
  else if ext = "jpg".toList ∨ ext = "jpeg".toList then "image/jpeg".toList
  else if ext = "png".toList then "image/png".toList
  else if ext = "gif".toList then "image/gif".toList
  else "application/octet-stream".toList

theorem takeWhile_append_of_all {p : Char → Bool} :
    ∀ (l1 l2 : List Char), (∀ c ∈ l1, p c = true) →
      (l1 ++ l2).takeWhile p = l1 ++ l2.takeWhile p := by
  intro l1 l2 h
  induction l1 with
  | nil => simp
  | cons a l ih =>
      have ha : p a = true := h a (by simp)
      have ihl := ih (fun c hc => h c (List.mem_cons_of_mem a hc))
      simp [List.takeWhile, ha, ihl]

theorem extAfterLastDot_append (stem ext : List Char) (h : '.' ∉ ext) :
    extAfterLastDot (stem ++ '.' :: ext) = ext := by
  unfold extAfterLastDot
  rw [List.reverse_append, List.reverse_cons, List.append_assoc]
  rw [takeWhile_append_of_all ext.reverse _ ?hall]
  case hall =>
    intro c hc
    have : c ∈ ext := List.mem_reverse.mp hc
    simp only [bne_iff_ne, ne_eq]
    intro he
    exact h (he ▸ this)
  have hdot : ((['.'] ++ stem.reverse).takeWhile (fun c => c != '.')) = [] := by
    simp [List.takeWhile]
  rw [hdot]
  simp

/-! ## Data model of one print request run

A run of a plugin operation is recorded as the ordered list of
platform-facing effects it performed plus the error it threw, if any.
Effect constructors correspond one-to-one to the platform calls of
Printer.java (temp-file creation, PrintHelper.printBitmap,
PrintManager.print with each adapter kind) and of the web implementation
(object-URL management, iframe print, window.print). -/

inductive Effect where
  | createTempFile (content : List Nat) (ext : List Char)
  | deleteTempFile (content : List Nat) (ext : List Char)
  | printHelperBitmap (name : List Char)
  | registerDocumentAdapter (name : List Char)
  | registerUriAdapter (name : List Char)
  | registerWebAdapter (name : List Char)
  | createObjectURL
  | revokeObjectURL
  | iframePrint (name : List Char)
  | windowPrint
deriving DecidableEq, Repr

/-- Errors thrown by the implementations, labelled after the spec's error
taxonomy; each constructor notes the concrete exception it stands for. -/
inductive PrintError where
  /-- Exception "File not found: ..." of printFile and printPdf. -/
  | sourceNotFound
  /-- Failure of the platform base64 decode primitive. -/
  | decodeError
  /-- Exception "Failed to decode image ..." after a bitmap decode failure. -/
  | imageDecodeError
  /-- Exception "Failed to open image file" / IOException while reading. -/
  | imageOpenError
  /-- Exception "Print service not available". -/
  | printServiceUnavailable
  /-- Exception "WebView not available". -/
  | webViewUnavailable
  /-- Web rejection with message "Failed to load content for printing". -/
  | loadFailed
  /-- Web rejection with message "Cannot access iframe window". -/
  | windowInaccessible
deriving DecidableEq, Repr

/-- Result of one operation call: the effects performed, in order, and the
error thrown (none = the call returned normally). -/
structure Outcome where
  effects : List Effect
  error : Option PrintError
deriving DecidableEq, Repr

/-- Sequencing of two steps: when the first throws, the second never runs. -/
def Outcome.seq (o₁ o₂ : Outcome) : Outcome :=
  match o₁.error with
  | some _ => o₁
  | none => ⟨o₁.effects ++ o₂.effects, o₂.error⟩

/-- Platform collaborators available to the Android implementation, one
field per outbound call made by Printer.java. -/
structure Env where
  /-- DocumentFile.fromSingleUri succeeded and documentFile.exists(). -/
  documentFileExists : List Char → Bool
  /-- documentFile.getType(): MIME type reported by the content resolver. -/
  documentFileType : List Char → Option (List Char)
  /-- documentFile.getName(): display name reported by the content resolver. -/
  documentFileName : List Char → Option (List Char)
  /-- new File(path).exists(). -/
  fileExists : List Char → Bool
  /-- BitmapFactory.decodeByteArray yields a non-null bitmap. -/
  decodeByteArray : List Nat → Bool
  /-- BitmapFactory.decodeFile yields a non-null bitmap. -/
  decodeFile : List Char → Bool
  /-- contentResolver.openInputStream: none = null stream or IOException. -/
  openInputStream : List Char → Option (List Nat)
  /-- BitmapFactory.decodeStream yields a non-null bitmap. -/
  decodeStream : List Nat → Bool
  /-- getSystemService(PRINT_SERVICE) returned a non-null PrintManager. -/
  serviceAvailable : Bool
  /-- WebViewClient.onPageFinished fires for the loaded markup. -/
  renderFinishes : Bool

/-- Scheme of a parsed URI: the text before the first colon (models
android.net.Uri.getScheme; none when the string has no colon). -/
def uriScheme (path : List Char) : Option (List Char) :=
  if ':' ∈ path then some (path.takeWhile (fun c => c != ':')) else none

/-- Path component of a parsed URI (models android.net.Uri.getPath on the
URIs the plugin handles: strips a leading file:// authority form). -/
def uriPath (path : List Char) : List Char :=
  if ("file://".toList).isPrefixOf path then path.drop 7 else path

/-- Temp file produced by Printer.saveTempFile: it holds exactly the bytes
written and carries the extension chosen from the MIME type. -/
structure TempFile where
  content : List Nat
  ext : List Char
deriving DecidableEq, Repr

/-- Embedding of Printer.saveTempFile. -/
def saveTempFile (data : List Nat) (mimeType : List Char) : TempFile :=
  ⟨data, getExtensionFromMimeType mimeType⟩

/-- Embedding of Printer.printImage: PrintHelper.printBitmap, no service
check, no failure path. -/
def printImage (name : List Char) : Outcome :=
  ⟨[Effect.printHelperBitmap name], none⟩

/-- Embedding of Printer.printImageFromUri. -/
def printImageFromUri (env : Env) (uri name : List Char) : Outcome :=
  match env.openInputStream uri with
  | none => ⟨[], some PrintError.imageOpenError⟩
  | some bytes =>
      if env.decodeStream bytes then printImage name
      else ⟨[], some PrintError.imageDecodeError⟩

/-- Embedding of Printer.printDocument: throws when the print service is
null, otherwise registers a PdfDocumentAdapter with the print manager. -/
def printDocument (env : Env) (name : List Char) : Outcome :=
  if env.serviceAvailable then ⟨[Effect.registerDocumentAdapter name], none⟩
  else ⟨[], some PrintError.printServiceUnavailable⟩

/-- Embedding of Printer.printDocumentFromUri: throws when the print service
is null, otherwise registers a UriDocumentAdapter with the print manager. -/
def printDocumentFromUri (env : Env) (name : List Char) : Outcome :=
  if env.serviceAvailable then ⟨[Effect.registerUriAdapter name], none⟩
  else ⟨[], some PrintError.printServiceUnavailable⟩

/-- Embedding of Printer.createWebPrintJob: RETURNS SILENTLY when the print
service is null (no exception), otherwise registers the web view's print
document adapter. -/
def createWebPrintJob (env : Env) (name : List Char) : Outcome :=
  if env.serviceAvailable then ⟨[Effect.registerWebAdapter name], none⟩
  else ⟨[], none⟩

/-- Embedding of Printer.printBase64: decode the payload, dispatch images to
PrintHelper, and everything else through a temp file to printDocument. -/
def printBase64 (env : Env) (data mimeType name : List Char) : Outcome :=
  match b64decode data with
  | none => ⟨[], some PrintError.decodeError⟩
  | some decoded =>
      if ("image/".toList).isPrefixOf mimeType then
        if env.decodeByteArray decoded then printImage name
        else ⟨[], some PrintError.imageDecodeError⟩
      else
        let tf := saveTempFile decoded mimeType
        Outcome.seq ⟨[Effect.createTempFile tf.content tf.ext], none⟩
          (printDocument env name)

/-- MIME type used by the file branch of Printer.printFile: the declared
type when non-null, else the extension lookup. -/
def resolveFileMime (declared : Option (List Char)) (path : List Char) :
    List Char :=
  match declared with
  | some m => m
  | none => getMimeTypeFromPath path

/-- Test mimeType != null && mimeType.startsWith("image/") on a nullable
MIME type. -/
def mimeTypeIsImage : Option (List Char) → Bool
  | some m => ("image/".toList).isPrefixOf m
  | none => false

/-- Embedding of Printer.printFile. -/
def printFile (env : Env) (path : List Char) (mimeType : Option (List Char))
    (name : List Char) : Outcome :=
  if uriScheme path = some ("content".toList) then
    if env.documentFileExists path = false then
      ⟨[], some PrintError.sourceNotFound⟩
    else
      let mt := match mimeType with
                | some m => some m
                | none => env.documentFileType path
      if mimeTypeIsImage mt then printImageFromUri env path name
      else printDocumentFromUri env name
  else
    let p := uriPath path
    if env.fileExists p = false then ⟨[], some PrintError.sourceNotFound⟩
    else
      let mt := resolveFileMime mimeType p
      if ("image/".toList).isPrefixOf mt then
        if env.decodeFile p then printImage name
        else ⟨[], some PrintError.imageDecodeError⟩
      else printDocument env name

/-- Embedding of Printer.printPdf: content URIs dispatch straight to
printDocumentFromUri with no existence check; direct paths are checked. -/
def printPdf (env : Env) (path name : List Char) : Outcome :=
  if uriScheme path = some ("content".toList) then
    printDocumentFromUri env name
  else
    let p := uriPath path
    if env.fileExists p = false then ⟨[], some PrintError.sourceNotFound⟩
    else printDocument env name

/-- Embedding of Printer.printHtml: the web view loads the markup and the
print job is created only from the onPageFinished callback; no failure
callback is installed, so a load that never finishes produces nothing. -/
def printHtml (env : Env) (html name : List Char) : Outcome :=
  if env.renderFinishes then createWebPrintJob env name else ⟨[], none⟩

/-- Embedding of Printer.printWebView. -/
def printWebView (env : Env) (webViewAvailable : Bool) (name : List Char) :
    Outcome :=
  if webViewAvailable then createWebPrintJob env name
  else ⟨[], some PrintError.webViewUnavailable⟩

/-! ## Web implementation (PrinterWeb in plugin.cjs.js) -/

/-- Collaborators of the web implementation: whether the hidden iframe's
load event fires (versus its error event), and whether its contentWindow is
accessible once loaded. -/
structure WebEnv where
  loadSucceeds : Bool
  windowAccessible : Bool
deriving DecidableEq, Repr

/-- Embedding of PrinterWeb.printFromUrl: on the iframe error event the
promise rejects with "Failed to load content for printing" and the print
call is never made; on load, the iframe window is focused and printed, or
the promise rejects when the window cannot be accessed. -/
def webPrintFromUrl (env : WebEnv) (url name : List Char) : Outcome :=
  if env.loadSucceeds = false then ⟨[], some PrintError.loadFailed⟩
  else if env.windowAccessible = false then
    ⟨[], some PrintError.windowInaccessible⟩
  else ⟨[Effect.iframePrint name], none⟩

/-- Embedding of PrinterWeb.printBase64: atob-decode the payload, create a
blob object URL, await printFromUrl, then revoke the URL.  The revocation
statement runs only when the awaited call resolves: a rejection propagates
out of the async function first. -/
def webPrintBase64 (env : WebEnv) (data mimeType name : List Char) :
    Outcome :=
  match b64decode data with
  | none => ⟨[], some PrintError.decodeError⟩
  | some _ =>
      Outcome.seq ⟨[Effect.createObjectURL], none⟩
        (Outcome.seq (webPrintFromUrl env ("blob:".toList) name)
          ⟨[Effect.revokeObjectURL], none⟩)

/-- Embedding of PrinterWeb.printHtml: create a blob URL for the markup,
await printFromUrl, then revoke the URL (same shape as webPrintBase64). -/
def webPrintHtml (env : WebEnv) (html name : List Char) : Outcome :=
  Outcome.seq ⟨[Effect.createObjectURL], none⟩
    (Outcome.seq (webPrintFromUrl env ("blob:".toList) name)
      ⟨[Effect.revokeObjectURL], none⟩)

/-- Session state of the web page, as touched by the web implementation. -/
structure WebSession where
  documentTitle : List Char
deriving DecidableEq, Repr

/-- Embedding of PrinterWeb.getPluginVersion: returns the literal string
'7.0.0' and touches nothing. -/
def getPluginVersion (s : WebSession) : List Char × WebSession :=
  ("7.0.0".toList, s)

/-! ## Document-provider adapter state machine

PdfDocumentAdapter and UriDocumentAdapter in Printer.java, driven by the
platform print subsystem: onLayout first, then, only after a finished
layout, onWrite. -/

inductive LayoutResult where
  | cancelled
  | finished (documentName : List Char)
deriving DecidableEq, Repr

inductive WriteResult where
  | finished (written : List Nat)
  | failed
deriving DecidableEq, Repr

/-- States of one adapter job, following the spec's section 4.3 machine. -/
inductive JobState where
  | created
  | layingOut
  | ready
  | writing
  | finished
  | failed
  | cancelled
deriving DecidableEq, Repr

/-- Embedding of PdfDocumentAdapter.onLayout: a pending cancellation is
acknowledged through onLayoutCancelled and the method returns; otherwise
document info is built from the file name and onLayoutFinished is called. -/
def pdfAdapterOnLayout (canceled : Bool) (fileName : List Char) :
    LayoutResult :=
  if canceled then LayoutResult.cancelled else LayoutResult.finished fileName

/-- Embedding of UriDocumentAdapter.onLayout: same cancellation handling;
the document name falls back to "Document" when the content resolver
reports none. -/
def uriAdapterOnLayout (canceled : Bool) (docName : Option (List Char)) :
    LayoutResult :=
  if canceled then LayoutResult.cancelled
  else LayoutResult.finished (docName.getD ("Document".toList))

/-- Embedding of PdfDocumentAdapter.onWrite: the opened input stream is
copied to the sink buffer by buffer and onWriteFinished is called; any
exception (including a failed open) is reported through onWriteFailed. -/
def pdfAdapterOnWrite (stream : Option (List Nat)) : WriteResult :=
  match stream with
  | none => WriteResult.failed
  | some bs => WriteResult.finished (onWriteCopy bs)

/-- Embedding of UriDocumentAdapter.onWrite: a null stream from the content
resolver is reported through onWriteFailed, otherwise the stream is copied
buffer by buffer and onWriteFinished is called. -/
def uriAdapterOnWrite (stream : Option (List Nat)) : WriteResult :=
  match stream with
  | none => WriteResult.failed
  | some bs => WriteResult.finished (onWriteCopy bs)

/-- One layout-then-write pass of an adapter job as the platform drives it:
after a cancelled layout the platform never calls onWrite.  Returns the
terminal job state and whether the write step was entered. -/
def adapterJobRun (layout : LayoutResult) (stream : Option (List Nat)) :
    JobState × Bool :=
  match layout with
  | LayoutResult.cancelled => (JobState.cancelled, false)
  | LayoutResult.finished _ =>
      match pdfAdapterOnWrite stream with
      | WriteResult.finished _ => (JobState.finished, true)
      | WriteResult.failed => (JobState.failed, true)

/-! ## Payload classification -/

inductive Category where
  | image
  | document
  | markup
  | liveSurface
deriving DecidableEq, Repr

/-- Classification performed by printBase64's dispatch: MIME types starting
with "image/" go to the image branch, everything else to the generic
document branch. -/
def classifyMime (mimeType : List Char) : Category :=
  if ("image/".toList).isPrefixOf mimeType then Category.image
  else Category.document

/-! ## Concrete environments used by witnesses and counterexamples -/

/-- Environment with a working print service, an image decoder that
succeeds, and a content resolver and filesystem that report nothing. -/
def envAvail : Env :=
  { documentFileExists := fun _ => false
    documentFileType := fun _ => none
    documentFileName := fun _ => none
    fileExists := fun _ => false
    decodeByteArray := fun _ => true
    decodeFile := fun _ => false
    openInputStream := fun _ => none
    decodeStream := fun _ => false
    serviceAvailable := true
    renderFinishes := true }

/-- Environment whose content resolver reports every URI as nonexistent,
with the print service available. -/
def envAbsent : Env :=
  { envAvail with documentFileExists := fun _ => false }

/-- Environment whose web view never reaches onPageFinished. -/
def envNoRender : Env :=
  { envAvail with renderFinishes := false }

/-- Environment with no print service. -/
def envNoService : Env :=
  { envAvail with serviceAvailable := false }

/-- Web environment whose iframe load fails. -/
def wenvLoadFail : WebEnv := ⟨false, true⟩

/-- Web environment in which loading and printing work. -/
def wenvOk : WebEnv := ⟨true, true⟩

/-! ## Claim theorems -/

/-- C1: encoding any byte sequence as base64 and passing it through
printBase64 with MIME type application/pdf produces a temp artifact whose
byte content equals the original bytes exactly, and when the document
adapter's write step finishes the entire byte source has been copied to the
output sink. -/
theorem c1_base64_roundtrip_and_write (env : Env) (bs : List Nat)
    (name fileName : List Char)
    (hbytes : ∀ b ∈ bs, b < 256) (hserv : env.serviceAvailable = true) :
    printBase64 env (b64encode bs) ("application/pdf".toList) name =
      ⟨[Effect.createTempFile bs (".pdf".toList),
        Effect.registerDocumentAdapter name], none⟩
    ∧ pdfAdapterOnWrite (some bs) = WriteResult.finished bs
    ∧ adapterJobRun (pdfAdapterOnLayout false fileName) (some bs) =
        (JobState.finished, true) := by
  have hd := b64decode_b64encode bs hbytes
  have hpref : (("image/".toList).isPrefixOf ("application/pdf".toList)) =
      false := by decide
  have hext : getExtensionFromMimeType ("application/pdf".toList) =
      ".pdf".toList := by decide
  refine ⟨?_, ?_, ?_⟩
  · simp only [printBase64, hd]
    rw [if_neg (by rw [hpref]; exact Bool.false_ne_true)]
    simp only [saveTempFile, hext, Outcome.seq, printDocument, if_pos hserv]
    rfl
  · simp [pdfAdapterOnWrite, onWriteCopy_id]
  · simp [adapterJobRun, pdfAdapterOnLayout, pdfAdapterOnWrite, onWriteCopy_id]

theorem c1_witness :
    printBase64 envAvail (b64encode [37, 80, 68, 70])
        ("application/pdf".toList) ("Invoice".toList) =
      ⟨[Effect.createTempFile [37, 80, 68, 70] (".pdf".toList),
        Effect.registerDocumentAdapter ("Invoice".toList)], none⟩ :=
  (c1_base64_roundtrip_and_write envAvail [37, 80, 68, 70] ("Invoice".toList)
    ("f".toList) (by decide) rfl).1

/-- C2 counterexample: printPdf dispatches a content URI straight to the
print manager without consulting the content resolver, so a URI the
resolver reports as nonexistent still reaches the print UI with no
SourceNotFound failure. -/
theorem c2_counterexample :
    envAbsent.documentFileExists ("content://absent/doc".toList) = false
    ∧ printPdf envAbsent ("content://absent/doc".toList) ("X".toList) =
        ⟨[Effect.registerUriAdapter ("X".toList)], none⟩ := by
  constructor
  · rfl
  · rfl

/-- C2 amended: printFile fails with SourceNotFound before any print UI for
both nonexistent content URIs and nonexistent direct paths, and printPdf
does so for nonexistent direct paths only; a content URI given to printPdf
is dispatched without an existence check. -/
theorem c2_amended_existence_checks (env : Env) (path name : List Char)
    (mimeType : Option (List Char)) :
    (uriScheme path = some ("content".toList) →
      env.documentFileExists path = false →
      printFile env path mimeType name = ⟨[], some PrintError.sourceNotFound⟩)
    ∧ (uriScheme path ≠ some ("content".toList) →
      env.fileExists (uriPath path) = false →
      printFile env path mimeType name = ⟨[], some PrintError.sourceNotFound⟩
      ∧ printPdf env path name = ⟨[], some PrintError.sourceNotFound⟩) := by
  constructor
  · intro hs he
    unfold printFile
    rw [if_pos hs, if_pos he]
  · intro hs he
    constructor
    · unfold printFile
      rw [if_neg hs]
      simp only []
      rw [if_pos he]
    · unfold printPdf
      rw [if_neg hs]
      simp only []
      rw [if_pos he]

theorem c2_witness :
    printFile envAbsent ("content://absent/doc".toList) none ("X".toList) =
      ⟨[], some PrintError.sourceNotFound⟩ :=
  (c2_amended_existence_checks envAbsent ("content://absent/doc".toList)
    ("X".toList) none).1 (by decide) rfl

/-- C3: an image MIME type classifies as Image, and printBase64 with valid
base64 data and an image MIME type takes the image dispatch branch
(PrintHelper), never the generic document branch (temp file plus document
adapter). -/
theorem c3_image_branch (env : Env) (data mimeType name : List Char)
    (bytes : List Nat)
    (hdec : b64decode data = some bytes)
    (himg : ("image/".toList).isPrefixOf mimeType = true) :
    classifyMime mimeType = Category.image
    ∧ printBase64 env data mimeType name =
        (if env.decodeByteArray bytes then
          ⟨[Effect.printHelperBitmap name], none⟩
         else ⟨[], some PrintError.imageDecodeError⟩)
    ∧ (∀ c e, Effect.createTempFile c e ∉
        (printBase64 env data mimeType name).effects)
    ∧ (∀ n, Effect.registerDocumentAdapter n ∉
        (printBase64 env data mimeType name).effects) := by
  have hb : printBase64 env data mimeType name =
      (if env.decodeByteArray bytes then
        ⟨[Effect.printHelperBitmap name], none⟩
       else ⟨[], some PrintError.imageDecodeError⟩) := by
    simp only [printBase64, hdec]
    rw [if_pos himg]
    rfl
  refine ⟨?_, hb, ?_, ?_⟩
  · unfold classifyMime
    rw [if_pos himg]
  · intro c e
    rw [hb]
    by_cases hdb : env.decodeByteArray bytes = true
    · rw [if_pos hdb]; simp
    · rw [if_neg hdb]; simp
  · intro n
    rw [hb]
    by_cases hdb : env.decodeByteArray bytes = true
    · rw [if_pos hdb]; simp
    · rw [if_neg hdb]; simp

theorem c3_witness :
    printBase64 envAvail ("QUFB".toList) ("image/png".toList)
        ("Pic".toList) =
      ⟨[Effect.printHelperBitmap ("Pic".toList)], none⟩ := by
  have h := (c3_image_branch envAvail ("QUFB".toList) ("image/png".toList)
    ("Pic".toList) [65, 65, 65] (by decide) (by decide)).2.1
  rw [h]
  rfl

/-- C4: with no declared MIME type, the file branch resolves the MIME type
from the path extension through exactly the fixed lookup table of the spec
(pdf, jpg, jpeg, png, gif, with the octet-stream fallback). -/
theorem c4_extension_table (stem ext : List Char) (h : '.' ∉ ext) :
    getMimeTypeFromPath (stem ++ '.' :: ext) =
      specExtensionTable (ext.map javaLower)
    ∧ resolveFileMime none (stem ++ '.' :: ext) =
      specExtensionTable (ext.map javaLower) := by
  have he := extAfterLastDot_append stem ext h
  have h1 : getMimeTypeFromPath (stem ++ '.' :: ext) =
      specExtensionTable (ext.map javaLower) := by
    unfold getMimeTypeFromPath specExtensionTable
    rw [he]
  exact ⟨h1, h1⟩

theorem c4_witness :
    getMimeTypeFromPath ("file".toList ++ '.' :: "PDF".toList) =
      "application/pdf".toList := by
  have h := (c4_extension_table ("file".toList) ("PDF".toList)
    (by decide)).1
  rw [h]
  decide

/-- C5: printBase64 throws the decode error exactly on text that is not
well-formed base64, and in that case nothing has been dispatched: no effect
was performed before the failure. -/
theorem c5_decode_error_iff (env : Env) (data mimeType name : List Char) :
    ((printBase64 env data mimeType name).error = some PrintError.decodeError
      ↔ isValidB64 data = false)
    ∧ (isValidB64 data = false →
        printBase64 env data mimeType name =
          ⟨[], some PrintError.decodeError⟩) := by
  cases hd : b64decode data with
  | none =>
      have hv : isValidB64 data = false := by
        have hs := b64decode_isSome_iff data
        rw [hd] at hs
        exact hs.symm
      constructor
      · simp only [printBase64, hd, hv]
      · intro _
        simp only [printBase64, hd]
  | some bytes =>
      have hv : isValidB64 data = true := by
        have hs := b64decode_isSome_iff data
        rw [hd] at hs
        exact hs.symm
      have hne : (printBase64 env data mimeType name).error ≠
          some PrintError.decodeError := by
        simp only [printBase64, hd]
        by_cases hi : ("image/".toList).isPrefixOf mimeType = true
        · rw [if_pos hi]
          by_cases hdb : env.decodeByteArray bytes = true
          · rw [if_pos hdb]; simp [printImage]
          · rw [if_neg hdb]; simp
        · rw [if_neg hi]
          by_cases hsv : env.serviceAvailable = true
          · simp [Outcome.seq, printDocument, if_pos hsv]
          · simp [Outcome.seq, printDocument, if_neg hsv]
      constructor
      · rw [hv]
        simp only [Bool.true_eq_false, iff_false]
        exact hne
      · intro hfalse
        rw [hv] at hfalse
        cases hfalse

theorem c5_witness :
    printBase64 envAvail ("%%%".toList) ("application/pdf".toList)
        ("X".toList) = ⟨[], some PrintError.decodeError⟩ :=
  (c5_decode_error_iff envAvail ("%%%".toList) ("application/pdf".toList)
    ("X".toList)).2 (by decide)

/-- C6 counterexample: on Android a markup load that never finishes
produces no error at all (printHtml installs only an onPageFinished
callback), so the operation does not yield RenderingFailed as the claim
requires; the registry call is nevertheless not reached. -/
theorem c6_counterexample :
    printHtml envNoRender ("<p>hi</p>".toList) ("Note".toList) =
      ⟨[], none⟩ := rfl

/-- C6 amended: a markup render/load failure never reaches the print
registry call on either implementation; the web implementation rejects the
operation with its load-failure error, while the Android implementation
surfaces no error and produces no outcome at all. -/
theorem c6_amended_render_failure (env : Env) (wenv : WebEnv)
    (html name url : List Char)
    (hr : env.renderFinishes = false) (hw : wenv.loadSucceeds = false) :
    printHtml env html name = ⟨[], none⟩
    ∧ webPrintFromUrl wenv url name = ⟨[], some PrintError.loadFailed⟩
    ∧ (∀ n, Effect.registerWebAdapter n ∉ (printHtml env html name).effects)
    ∧ (∀ n, Effect.iframePrint n ∉ (webPrintFromUrl wenv url name).effects) := by
  have h1 : printHtml env html name = ⟨[], none⟩ := by
    unfold printHtml
    rw [if_neg (by rw [hr]; exact Bool.false_ne_true)]
  have h2 : webPrintFromUrl wenv url name =
      ⟨[], some PrintError.loadFailed⟩ := by
    unfold webPrintFromUrl
    rw [if_pos hw]
  refine ⟨h1, h2, ?_, ?_⟩
  · intro n
    rw [h1]
    simp
  · intro n
    rw [h2]
    simp

theorem c6_witness :
    webPrintFromUrl wenvLoadFail ("blob:x".toList) ("Note".toList) =
      ⟨[], some PrintError.loadFailed⟩ :=
  (c6_amended_render_failure envNoRender wenvLoadFail ("h".toList)
    ("Note".toList) ("blob:x".toList) rfl rfl).2.1

/-- C7 counterexample: a failed web printBase64 run leaves its blob object
URL unrevoked (the revocation statement is skipped when the awaited print
rejects), and a successful Android printBase64 run leaves its temp file in
the cache directory with no removal on any path. -/
theorem c7_counterexample :
    webPrintBase64 wenvLoadFail ("QQ==".toList) ("application/pdf".toList)
        ("J".toList) =
      ⟨[Effect.createObjectURL], some PrintError.loadFailed⟩
    ∧ printBase64 envAvail ("QQ==".toList) ("application/pdf".toList)
        ("J".toList) =
      ⟨[Effect.createTempFile [65] (".pdf".toList),
        Effect.registerDocumentAdapter ("J".toList)], none⟩ := by
  constructor
  · rfl
  · rfl

/-- C7 amended: the Android implementation never removes the temporary file
it creates, on the success or the failure path; the web implementation
revokes its blob object URL on the success path only, so a failed request
leaves the object URL unrevoked. -/
theorem c7_amended_temp_cleanup (env : Env) (wenv : WebEnv)
    (data mimeType name : List Char) :
    (∀ c e, Effect.deleteTempFile c e ∉
        (printBase64 env data mimeType name).effects)
    ∧ ((webPrintBase64 wenv data mimeType name).error = none →
        Effect.revokeObjectURL ∈
          (webPrintBase64 wenv data mimeType name).effects)
    ∧ ((webPrintBase64 wenv data mimeType name).error.isSome = true →
        Effect.revokeObjectURL ∉
          (webPrintBase64 wenv data mimeType name).effects) := by
  refine ⟨?_, ?_, ?_⟩
  · intro c e
    cases hd : b64decode data with
    | none => simp [printBase64, hd]
    | some bytes =>
        simp only [printBase64, hd]
        by_cases hi : ("image/".toList).isPrefixOf mimeType = true
        · rw [if_pos hi]
          by_cases hdb : env.decodeByteArray bytes = true
          · rw [if_pos hdb]; simp [printImage]
          · rw [if_neg hdb]; simp
        · rw [if_neg hi]
          by_cases hsv : env.serviceAvailable = true
          · simp [Outcome.seq, printDocument, if_pos hsv]
          · simp [Outcome.seq, printDocument, if_neg hsv]
  all_goals
    cases hd : b64decode data with
    | none => simp [webPrintBase64, hd]
    | some bytes =>
        rcases wenv with ⟨ls, wa⟩
        cases ls <;> cases wa <;>
          simp [webPrintBase64, hd, webPrintFromUrl, Outcome.seq]

theorem c7_witness :
    Effect.revokeObjectURL ∈
      (webPrintBase64 wenvOk ("QQ==".toList) ("application/pdf".toList)
        ("J".toList)).effects :=
  (c7_amended_temp_cleanup envAvail wenvOk ("QQ==".toList)
    ("application/pdf".toList) ("J".toList)).2.1 (by decide)

/-- C8: a cancellation signalled before layout completes is acknowledged by
both adapters through the cancelled layout result, without throwing, and
the write step is never entered for that layout pass. -/
theorem c8_layout_cancellation (canceled : Bool) (fileName : List Char)
    (docName : Option (List Char)) (stream : Option (List Nat))
    (h : canceled = true) :
    pdfAdapterOnLayout canceled fileName = LayoutResult.cancelled
    ∧ uriAdapterOnLayout canceled docName = LayoutResult.cancelled
    ∧ adapterJobRun (pdfAdapterOnLayout canceled fileName) stream =
        (JobState.cancelled, false)
    ∧ adapterJobRun (uriAdapterOnLayout canceled docName) stream =
        (JobState.cancelled, false) := by
  subst h
  refine ⟨rfl, rfl, rfl, rfl⟩

theorem c8_witness :
    adapterJobRun (pdfAdapterOnLayout true ("doc.pdf".toList))
        (some [1, 2, 3]) = (JobState.cancelled, false) :=
  (c8_layout_cancellation true ("doc.pdf".toList) none (some [1, 2, 3])
    rfl).2.2.1

/-- C9: with no print service, the document dispatch branch throws the
service-unavailable error, while createWebPrintJob (the markup and live
surface branch, used by printHtml and printWebView) returns silently with
no error and no effect. -/
theorem c9_no_print_service (env : Env) (name html : List Char)
    (h : env.serviceAvailable = false) :
    printDocument env name = ⟨[], some PrintError.printServiceUnavailable⟩
    ∧ printDocumentFromUri env name =
        ⟨[], some PrintError.printServiceUnavailable⟩
    ∧ createWebPrintJob env name = ⟨[], none⟩
    ∧ printHtml env html name = ⟨[], none⟩
    ∧ printWebView env true name = ⟨[], none⟩ := by
  have hnot : ¬ env.serviceAvailable = true := by
    rw [h]; exact Bool.false_ne_true
  have h3 : createWebPrintJob env name = ⟨[], none⟩ := by
    unfold createWebPrintJob
    rw [if_neg hnot]
  refine ⟨?_, ?_, h3, ?_, ?_⟩
  · unfold printDocument
    rw [if_neg hnot]
  · unfold printDocumentFromUri
    rw [if_neg hnot]
  · unfold printHtml
    by_cases hr : env.renderFinishes = true
    · rw [if_pos hr]; exact h3
    · rw [if_neg hr]
  · unfold printWebView
    rw [if_pos rfl]
    exact h3

theorem c9_witness :
    printDocument envNoService ("Doc".toList) =
      ⟨[], some PrintError.printServiceUnavailable⟩ :=
  (c9_no_print_service envNoService ("Doc".toList) ("h".toList) rfl).1

/-- C10: getPluginVersion returns the same literal string "7.0.0" on every
call, independent of any prior state, and leaves the session unchanged. -/
theorem c10_version_constant (s t : WebSession) :
    (getPluginVersion s).1 = "7.0.0".toList
    ∧ (getPluginVersion s).1 = (getPluginVersion t).1
    ∧ (getPluginVersion s).2 = s :=
  ⟨rfl, rfl, rfl⟩
